import Mathlib

/-!
Verification of the AkBS market-view frontend (src/frontend/src/views/MarketView.vue)
against its natural-language specification.

The component's reactive state, its computed filter, and its methods
(`fetchStocks`, `selectStock`, `loadChartData`, `renderChart`) are embedded
shallowly: network calls become explicit `Except`-valued inputs, and each
method returns the updated state together with the list of request URLs it
issued.  Numbers in the JSON rows are modelled as integers: the code only
copies them and compares `close > open`, so no real arithmetic is involved.
-/

/-- A stock descriptor as returned by `GET {API_BASE}/stocks/list`:
`{symbol, name}`. -/
structure Stock where
  symbol : String
  name : String
deriving DecidableEq, Repr

/-- One time-series row of the kline response: date, OHLC prices, volume and
the pre-computed indicator fields the chart reads (`ma20`, `vol_ma5`,
`macd`, `diff`, `dea`, `k`, `d`, `j`).  `open` is a Lean keyword, hence
the field name `open_`. -/
structure Row where
  date : String
  open_ : Int
  close : Int
  low : Int
  high : Int
  volume : Int
  ma20 : Int
  vol_ma5 : Int
  macd : Int
  diff : Int
  dea : Int
  k : Int
  d : Int
  j : Int
deriving DecidableEq, Repr

/-- Body of the kline endpoint response: `{data: [...]}`.  The code reads
`res.data.data`, i.e. the `data` field of the response body. -/
structure KlineBody where
  data : List Row
deriving DecidableEq, Repr

/-- JavaScript `haystack.includes(needle)`: substring containment. -/
def jsIncludes (haystack needle : String) : Bool :=
  decide (needle.data <:+: haystack.data)

/-- JavaScript `s.toLowerCase()`, modelled character-wise (the data in this
application is ASCII, where `Char.toLower` agrees with JavaScript). -/
def jsToLowerCase (s : String) : String :=
  ⟨s.data.map Char.toLower⟩

/-- The parallel column arrays extracted by `renderChart` from the row list
(the `// Extract data arrays` block). -/
structure ChartArrays where
  title : String
  dates : List String
  klineData : List (List Int)
  volumes : List Int
  volColors : List String
  ma20 : List Int
  volMa5 : List Int
  macd : List Int
  diff : List Int
  dea : List Int
  k : List Int
  d : List Int
  j : List Int
deriving DecidableEq, Repr

/-- The component's reactive state: `stocks`, `searchQuery`, `currentSymbol`,
`loading`, `error`, and the chart arrays last handed to echarts
(`chartInstance` is modelled by the data that was set on it). -/
structure AppState where
  stocks : List Stock
  searchQuery : String
  currentSymbol : String
  loading : Bool
  error : Option String
  chart : Option ChartArrays
deriving Repr

/-- `const API_BASE = 'http://localhost:8000'`. -/
def API_BASE : String := "http://localhost:8000"

/-- URL of the stock-list request issued by `fetchStocks`. -/
def listUrl : String := API_BASE ++ "/stocks/list"

/-- URL of the kline request issued by `loadChartData` for a symbol. -/
def klineUrl (symbol : String) : String :=
  API_BASE ++ "/stocks/" ++ symbol ++ "/kline"

/-- The computed `filteredStocks`: empty query returns the stored list;
otherwise the query is lowercased and a stock passes when its (raw)
symbol contains the lowercased query, or its lowercased name does. -/
def filteredStocks (st : AppState) : List Stock :=
  if st.searchQuery == "" then st.stocks
  else
    let query := jsToLowerCase st.searchQuery
    st.stocks.filter fun s =>
      jsIncludes s.symbol query || jsIncludes (jsToLowerCase s.name) query

/-- The filter as the specification words it ("case-insensitive substring
match" on symbol or name), for comparison with `filteredStocks`. -/
def filteredStocksSpec (st : AppState) : List Stock :=
  if st.searchQuery == "" then st.stocks
  else
    st.stocks.filter fun s =>
      jsIncludes (jsToLowerCase s.symbol) (jsToLowerCase st.searchQuery) ||
        jsIncludes (jsToLowerCase s.name) (jsToLowerCase st.searchQuery)

/-- `renderChart`'s data extraction: twelve parallel arrays, each a `map`
over the rows.  The candlestick entry for a row is
`[item.open, item.close, item.low, item.high]`, and the volume colour is
`item.close > item.open ? '#ef232a' : '#14b143'`. -/
def renderChart (symbol : String) (data : List Row) : ChartArrays where
  title := symbol ++ " K线图"
  dates := data.map fun item => item.date
  klineData := data.map fun item => [item.open_, item.close, item.low, item.high]
  volumes := data.map fun item => item.volume
  volColors := data.map fun item =>
    if item.close > item.open_ then "#ef232a" else "#14b143"
  ma20 := data.map fun item => item.ma20
  volMa5 := data.map fun item => item.vol_ma5
  macd := data.map fun item => item.macd
  diff := data.map fun item => item.diff
  dea := data.map fun item => item.dea
  k := data.map fun item => item.k
  d := data.map fun item => item.d
  j := data.map fun item => item.j

/-- The volume series' `itemStyle.color` callback:
`(params) => volColors[params.dataIndex]`. -/
def volumeBarColor (c : ChartArrays) (dataIndex : Nat) : Option String :=
  c.volColors[dataIndex]?

/-- `loadChartData(symbol)`: sets `loading`, clears `error`, issues the kline
request (its outcome is the `result` argument); on success renders the
`data` field of the body, on failure sets the fixed error string; the
`finally` clause clears `loading`.  Returns the new state and the URLs
requested during the call. -/
def loadChartData (st : AppState) (symbol : String)
    (result : Except Unit KlineBody) : AppState × List String :=
  let st1 := { st with loading := true, error := none }
  match result with
  | .ok body =>
      ({ st1 with chart := some (renderChart symbol body.data), loading := false },
        [klineUrl symbol])
  | .error _ =>
      ({ st1 with error := some "无法加载K线数据", loading := false },
        [klineUrl symbol])

/-- `selectStock(stock)`: returns early when the stock's symbol already is
the current symbol; otherwise records the symbol and loads its chart
data. -/
def selectStock (st : AppState) (stock : Stock)
    (klineResult : Except Unit KlineBody) : AppState × List String :=
  if st.currentSymbol == stock.symbol then (st, [])
  else
    loadChartData { st with currentSymbol := stock.symbol } stock.symbol
      klineResult

/-- `fetchStocks()`: issues the list request; on success stores the response
body as the stock list and, when it is non-empty, selects its first
element; on failure sets the list error string. -/
def fetchStocks (st : AppState) (listResult : Except Unit (List Stock))
    (klineResult : Except Unit KlineBody) : AppState × List String :=
  match listResult with
  | .ok body =>
      let st1 := { st with stocks := body }
      match body with
      | [] => (st1, [listUrl])
      | s :: _ =>
          let res := selectStock st1 s klineResult
          (res.1, listUrl :: res.2)
  | .error _ =>
      ({ st with error := some "无法加载股票列表" }, [listUrl])

/-- The component's initial state (the `ref` initialisers). -/
def initState : AppState where
  stocks := []
  searchQuery := ""
  currentSymbol := ""
  loading := false
  error := none
  chart := none

/-! ## Helper lemmas -/

/-- `loadChartData` never touches the stored stock list. -/
theorem loadChartData_stocks_eq (st : AppState) (symbol : String)
    (r : Except Unit KlineBody) :
    (loadChartData st symbol r).1.stocks = st.stocks := by
  cases r <;> rfl

/-- `selectStock` never touches the stored stock list. -/
theorem selectStock_stocks_eq (st : AppState) (stock : Stock)
    (r : Except Unit KlineBody) :
    (selectStock st stock r).1.stocks = st.stocks := by
  unfold selectStock
  split
  · rfl
  · exact loadChartData_stocks_eq _ _ _

/-- The computed filter always returns a sublist of the stored list. -/
theorem filteredStocks_sublist (st : AppState) :
    (filteredStocks st).Sublist st.stocks := by
  unfold filteredStocks
  split
  · exact List.Sublist.refl _
  · exact List.filter_sublist _

/-! ## Claims -/

/-- C3: `renderChart` produces parallel column arrays — dates, candlestick
tuples, volumes, colours and every indicator series all have the input
row count as length — and at every index the date entry is that row's
`date` and the candlestick entry is the tuple
`[open, close, low, high]` of that row. -/
theorem C3_renderChart_parallel_arrays (symbol : String) (data : List Row) :
    ((renderChart symbol data).dates.length = data.length ∧
      (renderChart symbol data).klineData.length = data.length ∧
      (renderChart symbol data).volumes.length = data.length ∧
      (renderChart symbol data).volColors.length = data.length ∧
      (renderChart symbol data).ma20.length = data.length ∧
      (renderChart symbol data).volMa5.length = data.length ∧
      (renderChart symbol data).macd.length = data.length ∧
      (renderChart symbol data).diff.length = data.length ∧
      (renderChart symbol data).dea.length = data.length ∧
      (renderChart symbol data).k.length = data.length ∧
      (renderChart symbol data).d.length = data.length ∧
      (renderChart symbol data).j.length = data.length) ∧
    ∀ i : Nat,
      (renderChart symbol data).dates[i]? = (data[i]?).map Row.date ∧
      (renderChart symbol data).klineData[i]? =
        (data[i]?).map fun r => [r.open_, r.close, r.low, r.high] := by
  simp [renderChart, List.getElem?_map]

/-- C4: no indicator arithmetic is performed — each indicator series handed
to the chart is the raw per-row field of the API response, unchanged. -/
theorem C4_indicators_passthrough (symbol : String) (data : List Row) (i : Nat) :
    (renderChart symbol data).ma20[i]? = (data[i]?).map Row.ma20 ∧
    (renderChart symbol data).volMa5[i]? = (data[i]?).map Row.vol_ma5 ∧
    (renderChart symbol data).macd[i]? = (data[i]?).map Row.macd ∧
    (renderChart symbol data).diff[i]? = (data[i]?).map Row.diff ∧
    (renderChart symbol data).dea[i]? = (data[i]?).map Row.dea ∧
    (renderChart symbol data).k[i]? = (data[i]?).map Row.k ∧
    (renderChart symbol data).d[i]? = (data[i]?).map Row.d ∧
    (renderChart symbol data).j[i]? = (data[i]?).map Row.j := by
  simp [renderChart, List.getElem?_map]

/-- C5: a failed kline fetch sets the fixed error string, issues exactly one
request (no retry), and ends with `loading` cleared; a successful fetch
also issues exactly one request, ends with `loading` cleared and leaves
`error` at `null`. -/
theorem C5_loadChartData_error_handling (st : AppState) (symbol : String)
    (body : KlineBody) :
    (loadChartData st symbol (.error ())).1.error = some "无法加载K线数据" ∧
    (loadChartData st symbol (.error ())).1.loading = false ∧
    (loadChartData st symbol (.error ())).2 = [klineUrl symbol] ∧
    (loadChartData st symbol (.ok body)).1.error = none ∧
    (loadChartData st symbol (.ok body)).1.loading = false ∧
    (loadChartData st symbol (.ok body)).2 = [klineUrl symbol] := by
  simp [loadChartData]

/-- C6: the list fetch requests `{API_BASE}/stocks/list` and stores the
response body directly as the stock list; the series fetch requests
`{API_BASE}/stocks/{symbol}/kline` and passes the body's `data` field to
the chart builder. -/
theorem C6_endpoint_usage (st : AppState) (body : List Stock)
    (kr : Except Unit KlineBody) (symbol : String) (kb : KlineBody) :
    (fetchStocks st (.ok body) kr).1.stocks = body ∧
    (fetchStocks st (.ok body) kr).2.head? = some (API_BASE ++ "/stocks/list") ∧
    (fetchStocks st (.error ()) kr).2 = [API_BASE ++ "/stocks/list"] ∧
    (loadChartData st symbol (.ok kb)).2 =
      [API_BASE ++ "/stocks/" ++ symbol ++ "/kline"] ∧
    (loadChartData st symbol (.ok kb)).1.chart = some (renderChart symbol kb.data) := by
  refine ⟨?_, ?_, rfl, rfl, rfl⟩ <;> cases body
  · rfl
  · exact selectStock_stocks_eq _ _ _
  · rfl
  · rfl

/-- C7: the fetched stock list is never modified afterwards — selecting a
stock and loading chart data leave the stored stocks (hence every
stored symbol and name) unchanged, and filtering yields a (new) sublist
of the stored list without touching it. -/
theorem C7_stocks_never_modified (st : AppState) (stock : Stock) (symbol : String)
    (kr kr' : Except Unit KlineBody) :
    (selectStock st stock kr).1.stocks = st.stocks ∧
    (loadChartData st symbol kr').1.stocks = st.stocks ∧
    (filteredStocks st).Sublist st.stocks :=
  ⟨selectStock_stocks_eq st stock kr, loadChartData_stocks_eq st symbol kr',
    filteredStocks_sublist st⟩

/-- C9: the filtered list is always an order-preserving sublist of the
stored list, and for the empty query the filter is the identity. -/
theorem C9_filter_sublist_identity (st : AppState) :
    (filteredStocks st).Sublist st.stocks ∧
    (st.searchQuery = "" → filteredStocks st = st.stocks) := by
  refine ⟨filteredStocks_sublist st, fun h => ?_⟩
  simp [filteredStocks, h]

/-- C9 witness: at the initial state (empty query) the filter is the
identity and the sublist property holds. -/
theorem C9_witness :
    (filteredStocks initState).Sublist initState.stocks ∧
    filteredStocks initState = initState.stocks :=
  ⟨(C9_filter_sublist_identity initState).1,
    (C9_filter_sublist_identity initState).2 rfl⟩

/-- C10: the volume bar at a row is coloured red exactly when the row's
close is strictly greater than its open, and green otherwise — so a row
with close equal to open is green. -/
theorem C10_volume_bar_color (symbol : String) (data : List Row) (i : Nat)
    (row : Row) (h : data[i]? = some row) :
    (volumeBarColor (renderChart symbol data) i = some "#ef232a" ↔
      row.close > row.open_) ∧
    (row.close ≤ row.open_ →
      volumeBarColor (renderChart symbol data) i = some "#14b143") := by
  have hc : volumeBarColor (renderChart symbol data) i =
      some (if row.close > row.open_ then "#ef232a" else "#14b143") := by
    simp [volumeBarColor, renderChart, List.getElem?_map, h]
  refine ⟨?_, fun hle => by rw [hc, if_neg (not_lt.mpr hle)]⟩
  rw [hc]
  constructor
  · intro he
    by_contra hng
    rw [if_neg hng] at he
    exact absurd (Option.some.inj he) (by decide)
  · intro hgt
    rw [if_pos hgt]

/-- C10 witness: a concrete row whose close equals its open gets the green
colour. -/
theorem C10_witness :
    volumeBarColor
      (renderChart "TEST" [⟨"2024-01-02", 10, 10, 8, 12, 100, 9, 90, 1, 1, 1, 50, 50, 50⟩]) 0 =
      some "#14b143" :=
  (C10_volume_bar_color "TEST"
      [⟨"2024-01-02", 10, 10, 8, 12, 100, 9, 90, 1, 1, 1, 50, 50, 50⟩] 0
      ⟨"2024-01-02", 10, 10, 8, 12, 100, 9, 90, 1, 1, 1, 50, 50, 50⟩ rfl).2
    (le_refl 10)

/-- C1 fails on the code: the query is lowercased but the symbol is not, so
symbol matching is case-sensitive.  The stock `AAPL` matches the query
`AAPL` case-insensitively, yet the filtered list drops it. -/
theorem C1_counterexample :
    jsIncludes (jsToLowerCase "AAPL") (jsToLowerCase "AAPL") = true ∧
    Stock.mk "AAPL" "Apple" ∉
      filteredStocks
        { stocks := [⟨"AAPL", "Apple"⟩], searchQuery := "AAPL",
          currentSymbol := "", loading := false, error := none, chart := none } := by
  decide

/-- C1 amended: for a non-empty query, the filtered list contains exactly
the stocks whose raw symbol contains the lowercased query, or whose
lowercased name contains the lowercased query (name matching is
case-insensitive, symbol matching is case-sensitive against the
lowercased query). -/
theorem C1_filteredStocks_membership (st : AppState) (h : st.searchQuery ≠ "")
    (s : Stock) :
    s ∈ filteredStocks st ↔
      s ∈ st.stocks ∧
        (jsIncludes s.symbol (jsToLowerCase st.searchQuery) ||
          jsIncludes (jsToLowerCase s.name) (jsToLowerCase st.searchQuery)) = true := by
  simp [filteredStocks, h, List.mem_filter]

/-- C1 witness: a lowercase query retains a stock whose symbol contains it. -/
theorem C1_witness :
    Stock.mk "600519" "Kweichow Moutai" ∈
      filteredStocks
        { stocks := [⟨"600519", "Kweichow Moutai"⟩], searchQuery := "600",
          currentSymbol := "", loading := false, error := none, chart := none } :=
  (C1_filteredStocks_membership _ (by decide) _).mpr (by decide)

/-- C2 fails on the code: clicking the stock whose symbol is already current
issues no kline request at all — `selectStock` returns early. -/
theorem C2_counterexample :
    (selectStock
        { stocks := [⟨"AAA", "Alpha"⟩], searchQuery := "", currentSymbol := "AAA",
          loading := false, error := none, chart := none }
        ⟨"AAA", "Alpha"⟩ (.ok ⟨[]⟩)).2 = [] ∧
    klineUrl "AAA" ∉
      (selectStock
        { stocks := [⟨"AAA", "Alpha"⟩], searchQuery := "", currentSymbol := "AAA",
          loading := false, error := none, chart := none }
        ⟨"AAA", "Alpha"⟩ (.ok ⟨[]⟩)).2 := by
  decide

/-- C2 amended: selecting a stock re-fetches its kline series exactly when
its symbol differs from the current one; when it equals the current
symbol, `selectStock` leaves the state unchanged and issues no request. -/
theorem C2_selectStock_refetch (st : AppState) (stock : Stock)
    (kr : Except Unit KlineBody) :
    (st.currentSymbol = stock.symbol → selectStock st stock kr = (st, [])) ∧
    (st.currentSymbol ≠ stock.symbol →
      (selectStock st stock kr).1.currentSymbol = stock.symbol ∧
      (selectStock st stock kr).2 = [klineUrl stock.symbol]) := by
  constructor
  · intro h
    simp [selectStock, h]
  · intro h
    cases kr <;> simp [selectStock, h, loadChartData]

/-- C2 witness: selecting a new symbol issues its kline request. -/
theorem C2_witness :
    (selectStock initState ⟨"AAA", "Alpha"⟩ (.ok ⟨[]⟩)).2 = [klineUrl "AAA"] :=
  ((C2_selectStock_refetch initState ⟨"AAA", "Alpha"⟩ (.ok ⟨[]⟩)).2 (by decide)).2

/-- C8 fails on the code: a successful fetch of the non-empty list whose
first stock has the empty-string symbol (equal to the initial current
symbol) selects nothing and issues no kline request. -/
theorem C8_counterexample :
    (fetchStocks initState (.ok [⟨"", "Ghost"⟩]) (.ok ⟨[]⟩)).2 = [listUrl] ∧
    klineUrl "" ∉ (fetchStocks initState (.ok [⟨"", "Ghost"⟩]) (.ok ⟨[]⟩)).2 := by
  decide

/-- C8 amended: after a successful list fetch from the initial state, a
non-empty result selects its first stock — the symbol becomes current
and its kline request follows the list request — unless that symbol
equals the initial current symbol (the empty string), in which case
`selectStock` returns early and no kline request is issued; an empty
result selects nothing and issues no kline request. -/
theorem C8_fetchStocks_first_selection (s : Stock) (rest : List Stock)
    (kr kr' : Except Unit KlineBody) :
    (s.symbol ≠ "" →
      (fetchStocks initState (.ok (s :: rest)) kr).1.currentSymbol = s.symbol ∧
      (fetchStocks initState (.ok (s :: rest)) kr).2 = [listUrl, klineUrl s.symbol]) ∧
    (s.symbol = "" →
      (fetchStocks initState (.ok (s :: rest)) kr).2 = [listUrl]) ∧
    ((fetchStocks initState (.ok ([] : List Stock)) kr').1.currentSymbol = "" ∧
      (fetchStocks initState (.ok ([] : List Stock)) kr').2 = [listUrl]) := by
  refine ⟨fun h => ?_, fun h => ?_, rfl, rfl⟩
  · have hb : (initState.currentSymbol == s.symbol) = false := by
      simp [initState]
      exact fun e => h e.symm
    cases kr <;>
      simp [fetchStocks, selectStock, loadChartData, hb]
  · have hb : (initState.currentSymbol == s.symbol) = true := by
      simp [initState, h]
    simp [fetchStocks, selectStock, hb]

/-- C8 witness: from the initial state, a successful fetch of a list headed
by `AAPL` selects it and requests its kline series. -/
theorem C8_witness :
    (fetchStocks initState (.ok [⟨"AAPL", "Apple"⟩]) (.ok ⟨[]⟩)).2 =
      [listUrl, klineUrl "AAPL"] :=
  ((C8_fetchStocks_first_selection ⟨"AAPL", "Apple"⟩ [] (.ok ⟨[]⟩) (.ok ⟨[]⟩)).1
    (by decide)).2
